import Mathlib

/-!
Shallow embedding of the cost-audit program in `src/AWS/cost_audit_v2.py`
(class `EC2CostAuditor` plus its `main` entry point).

Modelling conventions:

* Inventory records (volumes, snapshots, addresses, instances) are structures
  whose fields mirror the dictionary entries the program reads; entries read
  with a `dict.get` default are `Option` fields.
* Timestamps are absolute instants in seconds, modelled as `ℤ`; both the
  current UTC time and record timestamps live on this one axis, which is the
  aware/aware comparison the program performs.  The `strftime` rendering used
  only for display cells is abstracted as decimal rendering of the instant.
* Decimal arithmetic is modelled exactly over `ℚ`; Python `round(x, 2)`
  rounds half to even (banker's rounding), embedded as `round2`.
* A report row is a list of scalar `Cell`s; `sheets_data` is the ordered
  association list from sheet name to `Sheet`.
-/

/-- A tag as returned by the inventory API: a dictionary that may lack the
`Key` or the `Value` entry, hence `Option` fields. -/
structure Tag where
  key : Option String
  value : Option String
deriving DecidableEq

/-- `get_tag_value` (lines 38-45): extract a tag value by key, returning
`"N/A"` when not found.  The guard `if not tags` on an empty list coincides
with the loop falling through, so the translation is a single recursion. -/
def get_tag_value (tags : List Tag) (key : String) : String :=
  match tags with
  | [] => "N/A"
  | tag :: rest =>
    if tag.key = some key then (tag.value).getD "N/A"
    else get_tag_value rest key

/-- Round a rational to the nearest integer, ties to even: the semantics of
Python 3 `round` on the exact decimal values appearing in this program
(binary floating point itself is out of scope; price arithmetic is modelled
exactly). -/
def roundHalfEven (q : ℚ) : ℤ :=
  if q - ⌊q⌋ < 1/2 then ⌊q⌋
  else if 1/2 < q - ⌊q⌋ then ⌊q⌋ + 1
  else if ⌊q⌋ % 2 = 0 then ⌊q⌋ else ⌊q⌋ + 1

/-- Python `round(x, 2)`. -/
def round2 (q : ℚ) : ℚ := ((roundHalfEven (q * 100) : ℤ) : ℚ) / 100

/-- Python `dict.get` on a string-keyed dictionary of rates, with a default
value for a missing key. -/
def dictGet (d : List (String × ℚ)) (k : String) (d0 : ℚ) : ℚ :=
  match d with
  | [] => d0
  | p :: rest => if k = p.1 then p.2 else dictGet rest k d0

/-- The `cost_per_gb` dictionary of `calculate_ebs_cost` (lines 49-56). -/
def cost_per_gb : List (String × ℚ) :=
  [("gp2", 10/100), ("gp3", 8/100), ("io1", 125/1000), ("io2", 125/1000),
   ("st1", 45/1000), ("sc1", 15/1000)]

/-- `calculate_ebs_cost` (lines 47-57): monthly cost of a volume from its
size and storage class, with 0.045 as the default rate for an unknown
class. -/
def calculate_ebs_cost (size_gb : ℕ) (volume_type : String) : ℚ :=
  round2 ((size_gb : ℚ) * dictGet cost_per_gb volume_type (45/1000))

/-- A scalar cell of a report row: string, integer count or size, exact
decimal cost, or flag. -/
inductive Cell where
  | str : String → Cell
  | nat : ℕ → Cell
  | rat : ℚ → Cell
  | bool : Bool → Cell
deriving DecidableEq

/-- One entry of `sheets_data`: ordered headers plus ordered data rows. -/
structure Sheet where
  headers : List String
  data : List (List Cell)
deriving DecidableEq

/-- Display rendering of an instant; `strftime` is abstracted as decimal
rendering, used only for display cells that no claim inspects. -/
def timeText (t : ℤ) : String := toString t

/-- Cell for a numeric field read with default `"N/A"` (Iops, Throughput). -/
def optNatCell : Option ℕ → Cell
  | some n => Cell.nat n
  | none => Cell.str "N/A"

/-- One element of a volume's `Attachments` list (lines 84-86). -/
structure Attachment where
  instanceId : String
  device : String
deriving DecidableEq

/-- An EBS volume record as read by lines 71-86 of `audit_ebs_volumes`. -/
structure Volume where
  tags : List Tag
  volumeId : String
  size : ℕ
  volumeType : String
  state : String
  createTime : ℤ
  encrypted : Bool
  availabilityZone : String
  iops : Option ℕ
  throughput : Option ℕ
  attachments : List Attachment
deriving DecidableEq

/-- Line 85: the first attachment's instance id, else `"unattached"`. -/
def volInstanceId (v : Volume) : String :=
  match v.attachments with
  | [] => "unattached"
  | a :: _ => a.instanceId

/-- Line 86: the first attachment's device, else `"none"`. -/
def volDevice (v : Volume) : String :=
  match v.attachments with
  | [] => "none"
  | a :: _ => a.device

/-- Row appended to `all_volumes_data` (lines 89-92). -/
def allVolumeRow (v : Volume) : List Cell :=
  [Cell.str v.volumeId, Cell.str (get_tag_value v.tags "Name"), Cell.nat v.size,
   Cell.str v.volumeType, Cell.str v.state, Cell.str (volInstanceId v),
   Cell.str (volDevice v), Cell.str (timeText v.createTime), optNatCell v.iops,
   optNatCell v.throughput, Cell.bool v.encrypted, Cell.str v.availabilityZone]

/-- Row appended to `unattached_volumes_data` (lines 96-99). -/
def unattachedVolumeRow (v : Volume) : List Cell :=
  [Cell.str v.volumeId, Cell.str (get_tag_value v.tags "Name"), Cell.nat v.size,
   Cell.str v.volumeType, Cell.str (timeText v.createTime),
   Cell.rat (calculate_ebs_cost v.size v.volumeType)]

/-- Row appended to `gp2_migration_data` (lines 102-108). -/
def gp2MigrationRow (v : Volume) : List Cell :=
  [Cell.str v.volumeId, Cell.str (get_tag_value v.tags "Name"), Cell.nat v.size,
   Cell.str v.state, Cell.str (volInstanceId v),
   Cell.rat (round2 ((v.size : ℚ) * (10/100))),
   Cell.rat (round2 ((v.size : ℚ) * (8/100))),
   Cell.rat (round2 (round2 ((v.size : ℚ) * (10/100)) - round2 ((v.size : ℚ) * (8/100))))]

/-- The volume loop's appends to `all_volumes_data`, in order. -/
def allVolumeRows : List Volume → List (List Cell)
  | [] => []
  | v :: rest => allVolumeRow v :: allVolumeRows rest

/-- The volume loop's appends to `unattached_volumes_data` (guard on line 95:
`state == 'available'`). -/
def unattachedVolumeRows : List Volume → List (List Cell)
  | [] => []
  | v :: rest =>
    if v.state = "available" then unattachedVolumeRow v :: unattachedVolumeRows rest
    else unattachedVolumeRows rest

/-- The volume loop's appends to `gp2_migration_data` (guard on line 102:
`volume_type == 'gp2'`). -/
def gp2MigrationRows : List Volume → List (List Cell)
  | [] => []
  | v :: rest =>
    if v.volumeType = "gp2" then gp2MigrationRow v :: gp2MigrationRows rest
    else gp2MigrationRows rest

/-- `audit_ebs_volumes` (lines 59-126): the three sheets it stores into
`sheets_data`, with the headers of lines 111-126. -/
def audit_ebs_volumes (volumes : List Volume) : List (String × Sheet) :=
  [("EBS_Volumes_All",
    ⟨["VolumeId", "Name", "Size_GB", "VolumeType", "State", "InstanceId",
      "Device", "CreateTime", "Iops", "Throughput", "Encrypted", "AvailabilityZone"],
     allVolumeRows volumes⟩),
   ("EBS_Volumes_Unattached",
    ⟨["VolumeId", "Name", "Size_GB", "VolumeType", "CreateTime",
      "EstimatedMonthlyCost_USD"],
     unattachedVolumeRows volumes⟩),
   ("EBS_GP2_Migration",
    ⟨["VolumeId", "Name", "Size_GB", "State", "InstanceId",
      "GP2_Monthly_Cost", "GP3_Monthly_Cost", "Monthly_Savings"],
     gp2MigrationRows volumes⟩)]

/-- A snapshot record as read by lines 139-150 of `audit_ebs_snapshots`. -/
structure Snapshot where
  tags : List Tag
  snapshotId : String
  volumeId : Option String
  volumeSize : ℕ
  startTime : ℤ
  description : Option String
  state : String
  progress : Option String
  encrypted : Bool
deriving DecidableEq

/-- Row appended to `all_snapshots_data` (lines 153-156); line 150 computes
the cost as `round (volume_size * 0.05, 2)`. -/
def allSnapshotRow (s : Snapshot) : List Cell :=
  [Cell.str s.snapshotId, Cell.str (get_tag_value s.tags "Name"),
   Cell.str ((s.volumeId).getD "N/A"), Cell.nat s.volumeSize,
   Cell.str (timeText s.startTime), Cell.str ((s.description).getD "N/A"),
   Cell.str s.state, Cell.str ((s.progress).getD "N/A"), Cell.bool s.encrypted,
   Cell.rat (round2 ((s.volumeSize : ℚ) * (5/100)))]

/-- Reduced-column row appended to `old_snapshots_data` (lines 160-163). -/
def oldSnapshotRow (s : Snapshot) : List Cell :=
  [Cell.str s.snapshotId, Cell.str (get_tag_value s.tags "Name"),
   Cell.str ((s.volumeId).getD "N/A"), Cell.nat s.volumeSize,
   Cell.str (timeText s.startTime), Cell.str ((s.description).getD "N/A"),
   Cell.rat (round2 ((s.volumeSize : ℚ) * (5/100)))]

/-- The snapshot loop's appends to `all_snapshots_data`, in order. -/
def allSnapshotRows : List Snapshot → List (List Cell)
  | [] => []
  | s :: rest => allSnapshotRow s :: allSnapshotRows rest

/-- The snapshot loop's appends to `old_snapshots_data` (guard on line 159:
`start_time < ninety_days_ago`). -/
def oldSnapshotRows (cutoff : ℤ) : List Snapshot → List (List Cell)
  | [] => []
  | s :: rest =>
    if s.startTime < cutoff then oldSnapshotRow s :: oldSnapshotRows cutoff rest
    else oldSnapshotRows cutoff rest

/-- One day of `timedelta`, in seconds. -/
def secondsPerDay : ℤ := 86400

/-- `audit_ebs_snapshots` (lines 128-176); `now` is the current UTC instant
and line 137 sets the cutoff `ninety_days_ago` to `now` minus 90 days. -/
def audit_ebs_snapshots (snapshots : List Snapshot) (now : ℤ) : List (String × Sheet) :=
  [("EBS_Snapshots_All",
    ⟨["SnapshotId", "Name", "VolumeId", "VolumeSize_GB", "StartTime",
      "Description", "State", "Progress", "Encrypted", "EstimatedMonthlyCost_USD"],
     allSnapshotRows snapshots⟩),
   ("EBS_Snapshots_Old",
    ⟨["SnapshotId", "Name", "VolumeId", "VolumeSize_GB", "StartTime",
      "Description", "EstimatedMonthlyCost_USD"],
     oldSnapshotRows (now - 90 * secondsPerDay) snapshots⟩)]

/-- An Elastic IP record as read by lines 189-195 of `audit_elastic_ips`. -/
structure Address where
  tags : List Tag
  allocationId : String
  publicIp : String
  domain : String
  instanceId : Option String
  associationId : Option String
  networkInterfaceId : Option String
deriving DecidableEq

/-- Line 194: the association id read with default `'unattached'`. -/
def ipAssociationId (a : Address) : String := (a.associationId).getD "unattached"

/-- Line 196: `'attached' if association_id != 'unattached' else 'UNATTACHED'`. -/
def ipStatus (a : Address) : String :=
  if ipAssociationId a ≠ "unattached" then "attached" else "UNATTACHED"

/-- Line 197: `3.65 if association_id == 'unattached' else 0`. -/
def ipCost (a : Address) : ℚ :=
  if ipAssociationId a = "unattached" then 365/100 else 0

/-- Row appended to `all_ips_data` (lines 200-203). -/
def allIpRow (a : Address) : List Cell :=
  [Cell.str a.allocationId, Cell.str (get_tag_value a.tags "Name"),
   Cell.str a.publicIp, Cell.str a.domain, Cell.str ((a.instanceId).getD "none"),
   Cell.str (ipAssociationId a), Cell.str ((a.networkInterfaceId).getD "none"),
   Cell.str (ipStatus a), Cell.rat (ipCost a)]

/-- Row appended to `unattached_ips_data` (lines 207-209). -/
def unattachedIpRow (a : Address) : List Cell :=
  [Cell.str a.allocationId, Cell.str (get_tag_value a.tags "Name"),
   Cell.str a.publicIp, Cell.str a.domain, Cell.rat (365/100)]

/-- The address loop's appends to `all_ips_data`, in order. -/
def allIpRows : List Address → List (List Cell)
  | [] => []
  | a :: rest => allIpRow a :: allIpRows rest

/-- The address loop's appends to `unattached_ips_data` (guard on line 206:
`association_id == 'unattached'`). -/
def unattachedIpRows : List Address → List (List Cell)
  | [] => []
  | a :: rest =>
    if ipAssociationId a = "unattached" then unattachedIpRow a :: unattachedIpRows rest
    else unattachedIpRows rest

/-- `audit_elastic_ips` (lines 178-221). -/
def audit_elastic_ips (addresses : List Address) : List (String × Sheet) :=
  [("Elastic_IPs_All",
    ⟨["AllocationId", "Name", "PublicIp", "Domain", "InstanceId",
      "AssociationId", "NetworkInterfaceId", "Status", "Monthly_Cost_USD"],
     allIpRows addresses⟩),
   ("Elastic_IPs_Unattached",
    ⟨["AllocationId", "Name", "PublicIp", "Domain", "Monthly_Waste_USD"],
     unattachedIpRows addresses⟩)]

/-- One block-device mapping: `some vid` when the mapping has an `Ebs` entry
whose volume id is `vid` (lines 241-243). -/
structure Bdm where
  ebsVolumeId : Option String
deriving DecidableEq

/-- An EC2 instance record as read by lines 232-243. -/
structure Ec2Instance where
  tags : List Tag
  instanceId : String
  instanceType : String
  stateName : String
  launchTime : ℤ
  platform : Option String
  blockDeviceMappings : List Bdm
deriving DecidableEq

/-- One reservation of `describe_instances` (line 230). -/
structure Reservation where
  instances : List Ec2Instance
deriving DecidableEq

/-- Lines 240-243: the attached volume ids collected from the mappings. -/
def instanceVolumeIds (i : Ec2Instance) : List String :=
  (i.blockDeviceMappings).filterMap (fun b => b.ebsVolumeId)

/-- Row appended to `instances_data` (lines 245-248). -/
def instanceRow (i : Ec2Instance) : List Cell :=
  [Cell.str i.instanceId, Cell.str (get_tag_value i.tags "Name"),
   Cell.str i.instanceType, Cell.str i.stateName, Cell.str (timeText i.launchTime),
   Cell.str ((i.platform).getD "linux"), Cell.nat (instanceVolumeIds i).length,
   Cell.str (String.intercalate ";" (instanceVolumeIds i))]

/-- The nested reservation/instance loop (lines 230-248), in order. -/
def instanceRows : List Reservation → List (List Cell)
  | [] => []
  | r :: rest => (r.instances).map instanceRow ++ instanceRows rest

/-- `audit_ec2_instances` (lines 223-255). -/
def audit_ec2_instances (reservations : List Reservation) : List (String × Sheet) :=
  [("EC2_Instances",
    ⟨["InstanceId", "Name", "InstanceType", "State", "LaunchTime",
      "Platform", "AttachedVolumeCount", "VolumeIds"],
     instanceRows reservations⟩)]

/-- `generate_cost_summary` (lines 257-274): the header row and the five
static data rows of `summary_data`. -/
def generate_cost_summary : Sheet :=
  ⟨["Category", "Current_Monthly_Cost_USD", "Optimization_Opportunity_USD",
    "Potential_Savings_Percent"],
   [[Cell.str "Unattached_EBS_Volumes", Cell.str "CALCULATED", Cell.str "CALCULATED",
     Cell.str "100%"],
    [Cell.str "GP2_to_GP3_Migration", Cell.str "CALCULATED", Cell.str "CALCULATED",
     Cell.str "20%"],
    [Cell.str "Unattached_Elastic_IPs", Cell.str "CALCULATED", Cell.str "CALCULATED",
     Cell.str "100%"],
    [Cell.str "Old_Snapshots_90days", Cell.str "CALCULATED", Cell.str "CALCULATED",
     Cell.str "80%"],
    [Cell.str "Total_EC2_Other_Optimization", Cell.str "CALCULATED", Cell.str "CALCULATED",
     Cell.str "40%"]]⟩

/-- `run_audit` (lines 402-416): `sheets_data` in dictionary insertion order
after the five collectors ran over the listed inventory. -/
def run_audit (volumes : List Volume) (snapshots : List Snapshot) (now : ℤ)
    (addresses : List Address) (reservations : List Reservation) : List (String × Sheet) :=
  audit_ebs_volumes volumes ++ audit_ebs_snapshots snapshots now ++
    audit_elastic_ips addresses ++ audit_ec2_instances reservations ++
      [("Cost_Summary", generate_cost_summary)]

/-- The rows of the named sheet in an accumulated `sheets_data`. -/
def sheetRows (sheets : List (String × Sheet)) (nm : String) : List (List Cell) :=
  match sheets.lookup nm with
  | some sh => sh.data
  | none => []

/-- Python `str.split` with a one-character separator: splitting the empty
string yields one empty component, and separators delimit possibly empty
components. -/
def splitOnChar (c : Char) : List Char → List (List Char)
  | [] => [[]]
  | x :: xs =>
    let r := splitOnChar c xs
    if x = c then [] :: r
    else
      match r with
      | [] => [[x]]
      | y :: ys => (x :: y) :: ys

/-- The guard of line 467: `not args.region or len (args.region.split '-') < 3`. -/
def regionInvalid (region : String) : Bool :=
  decide (region = "") || decide ((splitOnChar '-' region.toList).length < 3)

/-- `main` (lines 441-484), given the parsed region and the outcome the
audit run would have (the body of the `try` block).  The result is the exit
code paired with whether the auditor was constructed and run, i.e. whether
any network call was attempted. -/
def main_result (region : String) (audit : Except String Unit) : ℕ × Bool :=
  if regionInvalid region then (1, false)
  else
    match audit with
    | Except.ok _ => (0, true)
    | Except.error _ => (1, true)

/-- Modelled from the spec: rounding "half-up to 2 decimal places", the rule
the spec ascribes to the cost computation; stated only to be compared with
the source's rounding. -/
def round2HalfUp (q : ℚ) : ℚ := ((⌊q * 100 + 1/2⌋ : ℤ) : ℚ) / 100

/-- A concrete snapshot whose start instant is exactly 91 days old when the
current instant is 0. -/
def sampleSnapshot : Snapshot :=
  ⟨[], "snap-0001", some "vol-0001", 20, -(91 * 86400), some "daily backup",
   "completed", some "100%", false⟩

/-- A concrete volume in state `"available"` that still carries an
attachment entry. -/
def attachedAvailableVolume : Volume :=
  ⟨[], "vol-odd", 100, "gp3", "available", 0, false, "us-east-1a", none, none,
   [⟨"i-0abc123", "/dev/sdf"⟩]⟩

/-- A concrete unattached volume in state `"available"`. -/
def plainAvailableVolume : Volume :=
  ⟨[], "vol-free", 50, "gp3", "available", 0, false, "us-east-1a", none, none, []⟩

/-- A concrete attached gp2 volume of size 100. -/
def gp2SampleVolume : Volume :=
  ⟨[], "vol-gp2", 100, "gp2", "in-use", 0, false, "us-east-1a", none, none,
   [⟨"i-1111111", "/dev/sda1"⟩]⟩

/-- A concrete address whose association id is present and equal to the
literal sentinel `"unattached"`. -/
def sentinelAssocAddress : Address :=
  ⟨[], "eipalloc-001", "203.0.113.7", "vpc", none, some "unattached", none⟩

/-- A concrete address with no association id at all. -/
def unassociatedAddress : Address :=
  ⟨[], "eipalloc-002", "203.0.113.9", "vpc", none, none, none⟩

/-! ### Helper lemmas about the rounding model -/

lemma roundHalfEven_intCast (z : ℤ) : roundHalfEven ((z : ℚ)) = z := by
  simp [roundHalfEven]

lemma roundHalfEven_nonneg (q : ℚ) (h : 0 ≤ q) : 0 ≤ roundHalfEven q := by
  have h0 : 0 ≤ ⌊q⌋ := Int.floor_nonneg.mpr h
  unfold roundHalfEven
  split_ifs <;> omega

lemma round2_nonneg (q : ℚ) (h : 0 ≤ q) : 0 ≤ round2 q := by
  have h1 : 0 ≤ roundHalfEven (q * 100) :=
    roundHalfEven_nonneg _ (mul_nonneg h (by norm_num))
  unfold round2
  exact div_nonneg (by exact_mod_cast h1) (by norm_num)

lemma round2_eq_self (q : ℚ) (z : ℤ) (h : q * 100 = (z : ℚ)) : round2 q = q := by
  unfold round2
  rw [h, roundHalfEven_intCast, ← h]
  field_simp

lemma round2_gp2cost (n : ℕ) : round2 ((n : ℚ) * (10/100)) = (n : ℚ) * (10/100) := by
  apply round2_eq_self _ (10 * (n : ℤ))
  push_cast
  ring

lemma round2_gp3cost (n : ℕ) : round2 ((n : ℚ) * (8/100)) = (n : ℚ) * (8/100) := by
  apply round2_eq_self _ (8 * (n : ℤ))
  push_cast
  ring

lemma round2_gp2savings (n : ℕ) :
    round2 ((n : ℚ) * (10/100) - (n : ℚ) * (8/100)) =
      (n : ℚ) * (10/100) - (n : ℚ) * (8/100) := by
  apply round2_eq_self _ (2 * (n : ℤ))
  push_cast
  ring

lemma dictGet_nonneg (d : List (String × ℚ)) (hd : ∀ p ∈ d, 0 ≤ p.2)
    (k : String) (d0 : ℚ) (h0 : 0 ≤ d0) : 0 ≤ dictGet d k d0 := by
  induction d with
  | nil => exact h0
  | cons p rest ih =>
    simp only [dictGet]
    split_ifs
    · exact hd p (List.mem_cons_self p rest)
    · exact ih (fun q hq => hd q (List.mem_cons_of_mem p hq))

lemma calculate_ebs_cost_nonneg (size_gb : ℕ) (t : String) :
    0 ≤ calculate_ebs_cost size_gb t := by
  apply round2_nonneg
  apply mul_nonneg (Nat.cast_nonneg _)
  apply dictGet_nonneg
  · intro p hp
    simp only [cost_per_gb, List.mem_cons, List.not_mem_nil, or_false] at hp
    rcases hp with rfl | rfl | rfl | rfl | rfl | rfl <;> norm_num
  · norm_num

/-! ### Helper lemmas about the collector loops -/

lemma mem_allVolumeRows {v : Volume} {vols : List Volume} (h : v ∈ vols) :
    allVolumeRow v ∈ allVolumeRows vols := by
  induction vols with
  | nil => cases h
  | cons w rest ih =>
    rcases List.mem_cons.mp h with rfl | h'
    · exact List.mem_cons_self _ _
    · exact List.mem_cons_of_mem _ (ih h')

lemma mem_unattachedVolumeRows {v : Volume} {vols : List Volume} (h : v ∈ vols)
    (hs : v.state = "available") :
    unattachedVolumeRow v ∈ unattachedVolumeRows vols := by
  induction vols with
  | nil => cases h
  | cons w rest ih =>
    rcases List.mem_cons.mp h with rfl | h'
    · simp only [unattachedVolumeRows, if_pos hs]
      exact List.mem_cons_self _ _
    · simp only [unattachedVolumeRows]
      split_ifs with hw
      · exact List.mem_cons_of_mem _ (ih h')
      · exact ih h'

lemma mem_gp2MigrationRows {v : Volume} {vols : List Volume} (h : v ∈ vols)
    (ht : v.volumeType = "gp2") :
    gp2MigrationRow v ∈ gp2MigrationRows vols := by
  induction vols with
  | nil => cases h
  | cons w rest ih =>
    rcases List.mem_cons.mp h with rfl | h'
    · simp only [gp2MigrationRows, if_pos ht]
      exact List.mem_cons_self _ _
    · simp only [gp2MigrationRows]
      split_ifs with hw
      · exact List.mem_cons_of_mem _ (ih h')
      · exact ih h'

lemma mem_oldSnapshotRows {s : Snapshot} {snaps : List Snapshot} {cutoff : ℤ}
    (h : s ∈ snaps) (hc : s.startTime < cutoff) :
    oldSnapshotRow s ∈ oldSnapshotRows cutoff snaps := by
  induction snaps with
  | nil => cases h
  | cons t rest ih =>
    rcases List.mem_cons.mp h with rfl | h'
    · simp only [oldSnapshotRows, if_pos hc]
      exact List.mem_cons_self _ _
    · simp only [oldSnapshotRows]
      split_ifs with hw
      · exact List.mem_cons_of_mem _ (ih h')
      · exact ih h'

lemma oldSnapshotRows_eq_filter (cutoff : ℤ) (snaps : List Snapshot) :
    oldSnapshotRows cutoff snaps =
      (snaps.filter (fun t => decide (t.startTime < cutoff))).map oldSnapshotRow := by
  induction snaps with
  | nil => rfl
  | cons s rest ih =>
    by_cases h : s.startTime < cutoff
    · simp [oldSnapshotRows, List.filter_cons, h, ih]
    · simp [oldSnapshotRows, List.filter_cons, h, ih]

lemma oldSnapshotRows_eq_nil (cutoff : ℤ) (snaps : List Snapshot)
    (h : ∀ s ∈ snaps, ¬ s.startTime < cutoff) : oldSnapshotRows cutoff snaps = [] := by
  induction snaps with
  | nil => rfl
  | cons s rest ih =>
    simp only [oldSnapshotRows, if_neg (h s (List.mem_cons_self s rest))]
    exact ih (fun t ht => h t (List.mem_cons_of_mem s ht))

lemma mem_allIpRows {a : Address} {addrs : List Address} (h : a ∈ addrs) :
    allIpRow a ∈ allIpRows addrs := by
  induction addrs with
  | nil => cases h
  | cons b rest ih =>
    rcases List.mem_cons.mp h with rfl | h'
    · exact List.mem_cons_self _ _
    · exact List.mem_cons_of_mem _ (ih h')

lemma mem_unattachedIpRows {a : Address} {addrs : List Address} (h : a ∈ addrs)
    (hu : ipAssociationId a = "unattached") :
    unattachedIpRow a ∈ unattachedIpRows addrs := by
  induction addrs with
  | nil => cases h
  | cons b rest ih =>
    rcases List.mem_cons.mp h with rfl | h'
    · simp only [unattachedIpRows, if_pos hu]
      exact List.mem_cons_self _ _
    · simp only [unattachedIpRows]
      split_ifs with hw
      · exact List.mem_cons_of_mem _ (ih h')
      · exact ih h'

lemma sheetRows_volumes_all (vols : List Volume) :
    sheetRows (audit_ebs_volumes vols) "EBS_Volumes_All" = allVolumeRows vols := rfl

lemma sheetRows_volumes_unattached (vols : List Volume) :
    sheetRows (audit_ebs_volumes vols) "EBS_Volumes_Unattached" =
      unattachedVolumeRows vols := rfl

lemma sheetRows_gp2_migration (vols : List Volume) :
    sheetRows (audit_ebs_volumes vols) "EBS_GP2_Migration" = gp2MigrationRows vols := rfl

lemma sheetRows_snapshots_old (snaps : List Snapshot) (now : ℤ) :
    sheetRows (audit_ebs_snapshots snaps now) "EBS_Snapshots_Old" =
      oldSnapshotRows (now - 90 * secondsPerDay) snaps := rfl

lemma sheetRows_ips_all (addrs : List Address) :
    sheetRows (audit_elastic_ips addrs) "Elastic_IPs_All" = allIpRows addrs := rfl

lemma sheetRows_ips_unattached (addrs : List Address) :
    sheetRows (audit_elastic_ips addrs) "Elastic_IPs_Unattached" =
      unattachedIpRows addrs := rfl

/-! ### Claim theorems -/

/-- Claim C4: the tag resolver returns the value of the first tag in the list
whose key equals the target key, and the sentinel `"N/A"` on an empty or
absent tag list or when no tag carries the key; it is a total function with
no error conditions. -/
theorem get_tag_value_spec (tags pre rest : List Tag) (t : Tag) (k v : String) :
    get_tag_value [] k = "N/A" ∧
    ((∀ u ∈ tags, ¬ u.key = some k) → get_tag_value tags k = "N/A") ∧
    ((∀ u ∈ pre, ¬ u.key = some k) → t.key = some k → t.value = some v →
      get_tag_value (pre ++ t :: rest) k = v) := by
  refine ⟨rfl, ?_, ?_⟩
  · intro hnone
    induction tags with
    | nil => rfl
    | cons u us ih =>
      simp only [get_tag_value, if_neg (hnone u (List.mem_cons_self u us))]
      exact ih (fun w hw => hnone w (List.mem_cons_of_mem u hw))
  · intro hpre hk hv
    induction pre with
    | nil =>
      simp only [List.nil_append, get_tag_value, if_pos hk, hv, Option.getD_some]
    | cons u us ih =>
      simp only [List.cons_append, get_tag_value,
        if_neg (hpre u (List.mem_cons_self u us))]
      exact ih (fun w hw => hpre w (List.mem_cons_of_mem u hw))

theorem get_tag_value_spec_witness :
    get_tag_value [⟨some "env", some "prod"⟩, ⟨some "Name", some "web"⟩] "Name" = "web" :=
  (get_tag_value_spec [] [⟨some "env", some "prod"⟩] []
      ⟨some "Name", some "web"⟩ "Name" "web").2.2 (by decide) (by decide) (by decide)

/-- Claim C1: the snapshot collector's age cutoff equals the current UTC time
minus 90 days and a snapshot is appended to the old-snapshots sheet exactly
when its start instant is strictly earlier than that cutoff; a snapshot
starting exactly 91 days before now is included and one 89 days before now is
not; both compared values are instants on the same UTC axis. -/
theorem snapshot_age_cutoff_spec (snapshots : List Snapshot) (now : ℤ) (s : Snapshot) :
    sheetRows (audit_ebs_snapshots snapshots now) "EBS_Snapshots_Old" =
      (snapshots.filter (fun t => decide (t.startTime < now - 90 * secondsPerDay))).map
        oldSnapshotRow ∧
    (s ∈ snapshots → s.startTime < now - 90 * secondsPerDay →
      oldSnapshotRow s ∈ sheetRows (audit_ebs_snapshots snapshots now) "EBS_Snapshots_Old") ∧
    (s ∈ snapshots → s.startTime = now - 91 * secondsPerDay →
      oldSnapshotRow s ∈ sheetRows (audit_ebs_snapshots snapshots now) "EBS_Snapshots_Old") ∧
    (s.startTime = now - 89 * secondsPerDay →
      sheetRows (audit_ebs_snapshots [s] now) "EBS_Snapshots_Old" = []) := by
  refine ⟨?_, ?_, ?_, ?_⟩
  · rw [sheetRows_snapshots_old]
    exact oldSnapshotRows_eq_filter _ _
  · intro hs hlt
    rw [sheetRows_snapshots_old]
    exact mem_oldSnapshotRows hs hlt
  · intro hs heq
    rw [sheetRows_snapshots_old]
    refine mem_oldSnapshotRows hs ?_
    rw [heq]
    simp only [secondsPerDay]
    omega
  · intro heq
    rw [sheetRows_snapshots_old]
    apply oldSnapshotRows_eq_nil
    intro t ht
    rw [List.mem_singleton.mp ht, heq]
    simp only [secondsPerDay]
    omega

theorem snapshot_age_cutoff_witness :
    oldSnapshotRow sampleSnapshot ∈
      sheetRows (audit_ebs_snapshots [sampleSnapshot] 0) "EBS_Snapshots_Old" :=
  (snapshot_age_cutoff_spec [sampleSnapshot] 0 sampleSnapshot).2.2.1
    (by decide) (by decide)

/-- Claim C2 (counterexample): at size 1 and class `"io1"` the program rounds
the exact value 0.125 half-to-even down to 0.12, while the half-up rounding
stated by the claim gives 0.13. -/
theorem calculate_ebs_cost_not_half_up :
    calculate_ebs_cost 1 "io1" = 12/100 ∧
    round2HalfUp ((1 : ℚ) * (125/1000)) = 13/100 ∧
    calculate_ebs_cost 1 "io1" ≠ round2HalfUp ((1 : ℚ) * (125/1000)) := by
  have hfl : ⌊(25/2 : ℚ)⌋ = 12 := by
    rw [Int.floor_eq_iff]
    norm_num
  have h1 : calculate_ebs_cost 1 "io1" = 12/100 := by
    show round2 (((1 : ℕ) : ℚ) * (125/1000)) = 12/100
    unfold round2
    rw [show (((1 : ℕ) : ℚ) * (125/1000)) * 100 = 25/2 by push_cast; norm_num]
    unfold roundHalfEven
    rw [hfl, if_neg (by norm_num), if_neg (by norm_num), if_pos (by norm_num)]
    norm_num
  have h2 : round2HalfUp ((1 : ℚ) * (125/1000)) = 13/100 := by
    unfold round2HalfUp
    rw [show ((1 : ℚ) * (125/1000)) * 100 + 1/2 = ((13 : ℤ) : ℚ) by norm_num,
      Int.floor_intCast]
    norm_num
  refine ⟨h1, h2, ?_⟩
  rw [h1, h2]
  norm_num

/-- Claim C2 (amended): the estimated monthly cost equals size times the
fixed per-class rate (gp2 0.10, gp3 0.08, io1/io2 0.125, st1 0.045,
sc1 0.015; any class not in the table priced at 0.045), rounded half-to-even
(Python's `round`) to 2 decimal places; size 100 with gp3 yields exactly 8. -/
theorem calculate_ebs_cost_spec (size_gb : ℕ) :
    calculate_ebs_cost size_gb "gp2" = round2 ((size_gb : ℚ) * (10/100)) ∧
    calculate_ebs_cost size_gb "gp3" = round2 ((size_gb : ℚ) * (8/100)) ∧
    calculate_ebs_cost size_gb "io1" = round2 ((size_gb : ℚ) * (125/1000)) ∧
    calculate_ebs_cost size_gb "io2" = round2 ((size_gb : ℚ) * (125/1000)) ∧
    calculate_ebs_cost size_gb "st1" = round2 ((size_gb : ℚ) * (45/1000)) ∧
    calculate_ebs_cost size_gb "sc1" = round2 ((size_gb : ℚ) * (15/1000)) ∧
    (∀ t : String, t ∉ (["gp2", "gp3", "io1", "io2", "st1", "sc1"] : List String) →
      calculate_ebs_cost size_gb t = round2 ((size_gb : ℚ) * (45/1000))) ∧
    calculate_ebs_cost 100 "gp3" = 8 := by
  refine ⟨rfl, rfl, rfl, rfl, rfl, rfl, ?_, ?_⟩
  · intro t ht
    simp only [List.mem_cons, List.not_mem_nil, or_false, not_or] at ht
    obtain ⟨h1, h2, h3, h4, h5, h6⟩ := ht
    unfold calculate_ebs_cost
    rw [show dictGet cost_per_gb t (45/1000) = 45/1000 by
      simp [dictGet, cost_per_gb, h1, h2, h3, h4, h5, h6]]
  · show round2 (((100 : ℕ) : ℚ) * (8/100)) = 8
    rw [round2_gp3cost 100]
    norm_num

theorem calculate_ebs_cost_spec_witness :
    calculate_ebs_cost 1 "standard" = round2 (((1 : ℕ) : ℚ) * (45/1000)) :=
  (calculate_ebs_cost_spec 1).2.2.2.2.2.2.1 "standard" (by decide)

/-- Claim C3 (counterexample): a record in state `"available"` that still
carries an attachment entry is appended to the unattached-volumes sheet, yet
its all-volumes row records the attachment's instance id rather than the
sentinel `"unattached"`. -/
theorem available_volume_instance_id_counterexample :
    attachedAvailableVolume.state = "available" ∧
    unattachedVolumeRow attachedAvailableVolume ∈
      sheetRows (audit_ebs_volumes [attachedAvailableVolume]) "EBS_Volumes_Unattached" ∧
    (allVolumeRow attachedAvailableVolume)[5]? = some (Cell.str "i-0abc123") ∧
    Cell.str "i-0abc123" ≠ Cell.str "unattached" := by
  refine ⟨rfl, ?_, rfl, by decide⟩
  rw [sheetRows_volumes_unattached]
  exact mem_unattachedVolumeRows (List.mem_singleton.mpr rfl) rfl

/-- Claim C3 (amended): every volume in state `"available"` is appended to
the unattached-volumes sheet with its computed monthly cost, and the
instance-id recorded in the all-volumes row is the first attachment's
instance id when an attachment exists and `"unattached"` exactly when the
attachment list is empty: it is derived from the attachment list, not from
the lifecycle state. -/
theorem available_volume_spec (vols : List Volume) (v : Volume) (hv : v ∈ vols) :
    (v.state = "available" →
      unattachedVolumeRow v ∈
        sheetRows (audit_ebs_volumes vols) "EBS_Volumes_Unattached" ∧
      (unattachedVolumeRow v)[5]? =
        some (Cell.rat (calculate_ebs_cost v.size v.volumeType))) ∧
    allVolumeRow v ∈ sheetRows (audit_ebs_volumes vols) "EBS_Volumes_All" ∧
    (allVolumeRow v)[5]? = some (Cell.str (volInstanceId v)) ∧
    (v.attachments = [] → volInstanceId v = "unattached") ∧
    (∀ a rest, v.attachments = a :: rest → volInstanceId v = a.instanceId) := by
  refine ⟨?_, ?_, rfl, ?_, ?_⟩
  · intro hs
    refine ⟨?_, rfl⟩
    rw [sheetRows_volumes_unattached]
    exact mem_unattachedVolumeRows hv hs
  · rw [sheetRows_volumes_all]
    exact mem_allVolumeRows hv
  · intro h
    simp [volInstanceId, h]
  · intro a rest h
    simp [volInstanceId, h]

theorem available_volume_spec_witness :
    unattachedVolumeRow plainAvailableVolume ∈
      sheetRows (audit_ebs_volumes [plainAvailableVolume]) "EBS_Volumes_Unattached" ∧
    volInstanceId plainAvailableVolume = "unattached" :=
  ⟨((available_volume_spec [plainAvailableVolume] plainAvailableVolume
      (by decide)).1 (by decide)).1,
   (available_volume_spec [plainAvailableVolume] plainAvailableVolume
      (by decide)).2.2.2.1 (by decide)⟩

/-- Claim C5: every gp2 volume, whatever its lifecycle state, gets a
migration-opportunities row whose legacy cost is size times 0.10,
next-generation cost size times 0.08 and monthly savings their difference,
each rounded to 2 decimals (the roundings are exact here); at size 100 the
values are exactly 10, 8 and 2. -/
theorem gp2_migration_spec (vols : List Volume) (v : Volume) (hv : v ∈ vols)
    (ht : v.volumeType = "gp2") :
    gp2MigrationRow v ∈ sheetRows (audit_ebs_volumes vols) "EBS_GP2_Migration" ∧
    gp2MigrationRow v =
      [Cell.str v.volumeId, Cell.str (get_tag_value v.tags "Name"), Cell.nat v.size,
       Cell.str v.state, Cell.str (volInstanceId v),
       Cell.rat ((v.size : ℚ) * (10/100)), Cell.rat ((v.size : ℚ) * (8/100)),
       Cell.rat ((v.size : ℚ) * (10/100) - (v.size : ℚ) * (8/100))] ∧
    (v.size = 100 →
      (gp2MigrationRow v)[5]? = some (Cell.rat 10) ∧
      (gp2MigrationRow v)[6]? = some (Cell.rat 8) ∧
      (gp2MigrationRow v)[7]? = some (Cell.rat 2)) := by
  have hrow : gp2MigrationRow v =
      [Cell.str v.volumeId, Cell.str (get_tag_value v.tags "Name"), Cell.nat v.size,
       Cell.str v.state, Cell.str (volInstanceId v),
       Cell.rat ((v.size : ℚ) * (10/100)), Cell.rat ((v.size : ℚ) * (8/100)),
       Cell.rat ((v.size : ℚ) * (10/100) - (v.size : ℚ) * (8/100))] := by
    unfold gp2MigrationRow
    rw [round2_gp2cost, round2_gp3cost, round2_gp2savings]
  refine ⟨?_, hrow, ?_⟩
  · rw [sheetRows_gp2_migration]
    exact mem_gp2MigrationRows hv ht
  · intro h100
    rw [hrow, h100]
    norm_num

theorem gp2_migration_spec_witness :
    gp2MigrationRow gp2SampleVolume ∈
      sheetRows (audit_ebs_volumes [gp2SampleVolume]) "EBS_GP2_Migration" :=
  (gp2_migration_spec [gp2SampleVolume] gp2SampleVolume (by decide) (by decide)).1

/-- Claim C6 (counterexample): an address whose association id is present but
equal to the literal `"unattached"` is classified `"UNATTACHED"` with cost
3.65 and appended to the unattached-IPs sheet, refuting the claim that every
present association id yields status `"attached"`, cost 0 and no append. -/
theorem ip_attached_counterexample :
    sentinelAssocAddress.associationId = some "unattached" ∧
    ipStatus sentinelAssocAddress = "UNATTACHED" ∧
    ipCost sentinelAssocAddress = 365/100 ∧
    unattachedIpRow sentinelAssocAddress ∈
      sheetRows (audit_elastic_ips [sentinelAssocAddress]) "Elastic_IPs_Unattached" := by
  refine ⟨rfl, rfl, rfl, ?_⟩
  rw [sheetRows_ips_unattached]
  exact mem_unattachedIpRows (List.mem_singleton.mpr rfl) rfl

/-- Claim C6 (amended): an address with no association id is recorded with
status `"UNATTACHED"` and monthly cost 3.65 and its address row is appended
to the unattached-IPs sheet; one whose association id is present and
different from the sentinel `"unattached"` is recorded with status
`"attached"` and cost 0 and is not appended there. -/
theorem ip_association_spec (addrs : List Address) (a : Address) (ha : a ∈ addrs) :
    (a.associationId = none →
      ipStatus a = "UNATTACHED" ∧ ipCost a = 365/100 ∧
      unattachedIpRow a ∈ sheetRows (audit_elastic_ips addrs) "Elastic_IPs_Unattached") ∧
    (∀ aid : String, a.associationId = some aid → aid ≠ "unattached" →
      ipStatus a = "attached" ∧ ipCost a = 0 ∧
      sheetRows (audit_elastic_ips [a]) "Elastic_IPs_Unattached" = []) ∧
    allIpRow a ∈ sheetRows (audit_elastic_ips addrs) "Elastic_IPs_All" ∧
    (allIpRow a)[7]? = some (Cell.str (ipStatus a)) ∧
    (allIpRow a)[8]? = some (Cell.rat (ipCost a)) := by
  refine ⟨?_, ?_, ?_, rfl, rfl⟩
  · intro hnone
    have hid : ipAssociationId a = "unattached" := by
      simp [ipAssociationId, hnone]
    refine ⟨by simp [ipStatus, hid], by simp [ipCost, hid], ?_⟩
    rw [sheetRows_ips_unattached]
    exact mem_unattachedIpRows ha hid
  · intro aid hsome hne
    have hid : ipAssociationId a = aid := by
      simp [ipAssociationId, hsome]
    refine ⟨by simp [ipStatus, hid, hne], by simp [ipCost, hid, hne], ?_⟩
    rw [sheetRows_ips_unattached]
    simp [unattachedIpRows, hid, hne]
  · rw [sheetRows_ips_all]
    exact mem_allIpRows ha

theorem ip_association_spec_witness :
    unattachedIpRow unassociatedAddress ∈
      sheetRows (audit_elastic_ips [unassociatedAddress]) "Elastic_IPs_Unattached" :=
  ((ip_association_spec [unassociatedAddress] unassociatedAddress
      (by decide)).1 (by decide)).2.2

/-- Claim C10: an address whose association id is present and equal to the
literal `"unattached"` is classified with status `"UNATTACHED"` and monthly
cost 3.65 and is appended to the unattached-IPs sheet: association state is
decided solely by comparing the defaulted association-id string against the
sentinel, not by field presence. -/
theorem ip_sentinel_association_spec (addrs : List Address) (a : Address)
    (ha : a ∈ addrs) (hs : a.associationId = some "unattached") :
    ipStatus a = "UNATTACHED" ∧ ipCost a = 365/100 ∧
    unattachedIpRow a ∈ sheetRows (audit_elastic_ips addrs) "Elastic_IPs_Unattached" := by
  have hid : ipAssociationId a = "unattached" := by
    simp [ipAssociationId, hs]
  refine ⟨by simp [ipStatus, hid], by simp [ipCost, hid], ?_⟩
  rw [sheetRows_ips_unattached]
  exact mem_unattachedIpRows ha hid

theorem ip_sentinel_association_witness :
    ipStatus sentinelAssocAddress = "UNATTACHED" ∧
    ipCost sentinelAssocAddress = 365/100 ∧
    unattachedIpRow sentinelAssocAddress ∈
      sheetRows (audit_elastic_ips [sentinelAssocAddress]) "Elastic_IPs_Unattached" :=
  ip_sentinel_association_spec [sentinelAssocAddress] sentinelAssocAddress
    (by decide) (by decide)

/-- Claim C7: a region string with fewer than three hyphen-delimited
components makes the program exit with status 1 without attempting any
network call; `"us-east-1"` passes validation while `"useast1"` and
`"us-east"` are rejected; a run whose audit completes without an unhandled
failure exits with status 0. -/
theorem region_validation_spec (region : String) (audit : Except String Unit) :
    ((splitOnChar '-' region.toList).length < 3 →
      main_result region audit = (1, false)) ∧
    regionInvalid "us-east-1" = false ∧
    regionInvalid "useast1" = true ∧
    regionInvalid "us-east" = true ∧
    (regionInvalid region = false → main_result region (Except.ok ()) = (0, true)) := by
  refine ⟨?_, by decide, by decide, by decide, ?_⟩
  · intro hlen
    have h : regionInvalid region = true := by
      unfold regionInvalid
      simp only [Bool.or_eq_true, decide_eq_true_eq]
      exact Or.inr hlen
    simp [main_result, h]
  · intro hval
    simp [main_result, hval]

theorem region_validation_witness :
    main_result "useast1" (Except.ok ()) = (1, false) :=
  (region_validation_spec "useast1" (Except.ok ())).1 (by decide)

/-- Claim C9: the summary builder's output is static and independent of the
other collectors' results: whatever inventory the run saw, the Cost_Summary
sheet is the fixed table with exactly five category rows, placeholder
`"CALCULATED"` cost cells and savings percentages 100, 20, 100, 80, 40. -/
theorem cost_summary_static (volumes : List Volume) (snapshots : List Snapshot)
    (now : ℤ) (addresses : List Address) (reservations : List Reservation) :
    (run_audit volumes snapshots now addresses reservations).lookup "Cost_Summary" =
      some
        ⟨["Category", "Current_Monthly_Cost_USD", "Optimization_Opportunity_USD",
          "Potential_Savings_Percent"],
         [[Cell.str "Unattached_EBS_Volumes", Cell.str "CALCULATED", Cell.str "CALCULATED",
           Cell.str "100%"],
          [Cell.str "GP2_to_GP3_Migration", Cell.str "CALCULATED", Cell.str "CALCULATED",
           Cell.str "20%"],
          [Cell.str "Unattached_Elastic_IPs", Cell.str "CALCULATED", Cell.str "CALCULATED",
           Cell.str "100%"],
          [Cell.str "Old_Snapshots_90days", Cell.str "CALCULATED", Cell.str "CALCULATED",
           Cell.str "80%"],
          [Cell.str "Total_EC2_Other_Optimization", Cell.str "CALCULATED",
           Cell.str "CALCULATED", Cell.str "40%"]]⟩ := rfl

lemma optNatCell_ne_rat (o : Option ℕ) (q : ℚ) : optNatCell o ≠ Cell.rat q := by
  cases o <;> simp [optNatCell]

lemma allVolumeRow_invariant (v : Volume) :
    (allVolumeRow v).length = 12 ∧ ∀ q : ℚ, Cell.rat q ∈ allVolumeRow v → 0 ≤ q := by
  refine ⟨rfl, ?_⟩
  intro q hq
  simp only [allVolumeRow, List.mem_cons, List.not_mem_nil, or_false] at hq
  rcases hq with h | h | h | h | h | h | h | h | h | h | h | h
  all_goals first
    | exact Cell.noConfusion h
    | exact absurd h.symm (optNatCell_ne_rat _ _)

lemma unattachedVolumeRow_invariant (v : Volume) :
    (unattachedVolumeRow v).length = 6 ∧
      ∀ q : ℚ, Cell.rat q ∈ unattachedVolumeRow v → 0 ≤ q := by
  refine ⟨rfl, ?_⟩
  intro q hq
  simp only [unattachedVolumeRow, List.mem_cons, List.not_mem_nil, or_false] at hq
  rcases hq with h | h | h | h | h | h
  all_goals first
    | exact Cell.noConfusion h
    | (injection h with h'
       rw [h']
       exact calculate_ebs_cost_nonneg _ _)

lemma gp2MigrationRow_invariant (v : Volume) :
    (gp2MigrationRow v).length = 8 ∧
      ∀ q : ℚ, Cell.rat q ∈ gp2MigrationRow v → 0 ≤ q := by
  refine ⟨rfl, ?_⟩
  intro q hq
  have hg2 : (0 : ℚ) ≤ round2 ((v.size : ℚ) * (10/100)) :=
    round2_nonneg _ (by positivity)
  have hg3 : (0 : ℚ) ≤ round2 ((v.size : ℚ) * (8/100)) :=
    round2_nonneg _ (by positivity)
  have hsv : (0 : ℚ) ≤
      round2 (round2 ((v.size : ℚ) * (10/100)) - round2 ((v.size : ℚ) * (8/100))) := by
    rw [round2_gp2cost, round2_gp3cost, round2_gp2savings]
    rw [show (v.size : ℚ) * (10/100) - (v.size : ℚ) * (8/100) =
      (v.size : ℚ) * (2/100) by ring]
    positivity
  simp only [gp2MigrationRow, List.mem_cons, List.not_mem_nil, or_false] at hq
  rcases hq with h | h | h | h | h | h | h | h
  all_goals first
    | exact Cell.noConfusion h
    | (injection h with h'
       rw [h']
       assumption)

lemma allSnapshotRow_invariant (s : Snapshot) :
    (allSnapshotRow s).length = 10 ∧
      ∀ q : ℚ, Cell.rat q ∈ allSnapshotRow s → 0 ≤ q := by
  refine ⟨rfl, ?_⟩
  intro q hq
  have hc : (0 : ℚ) ≤ round2 ((s.volumeSize : ℚ) * (5/100)) :=
    round2_nonneg _ (by positivity)
  simp only [allSnapshotRow, List.mem_cons, List.not_mem_nil, or_false] at hq
  rcases hq with h | h | h | h | h | h | h | h | h | h
  all_goals first
    | exact Cell.noConfusion h
    | (injection h with h'
       rw [h']
       assumption)

lemma oldSnapshotRow_invariant (s : Snapshot) :
    (oldSnapshotRow s).length = 7 ∧
      ∀ q : ℚ, Cell.rat q ∈ oldSnapshotRow s → 0 ≤ q := by
  refine ⟨rfl, ?_⟩
  intro q hq
  have hc : (0 : ℚ) ≤ round2 ((s.volumeSize : ℚ) * (5/100)) :=
    round2_nonneg _ (by positivity)
  simp only [oldSnapshotRow, List.mem_cons, List.not_mem_nil, or_false] at hq
  rcases hq with h | h | h | h | h | h | h
  all_goals first
    | exact Cell.noConfusion h
    | (injection h with h'
       rw [h']
       assumption)

lemma allIpRow_invariant (a : Address) :
    (allIpRow a).length = 9 ∧ ∀ q : ℚ, Cell.rat q ∈ allIpRow a → 0 ≤ q := by
  refine ⟨rfl, ?_⟩
  intro q hq
  have hc : (0 : ℚ) ≤ ipCost a := by
    unfold ipCost
    split_ifs <;> norm_num
  simp only [allIpRow, List.mem_cons, List.not_mem_nil, or_false] at hq
  rcases hq with h | h | h | h | h | h | h | h | h
  all_goals first
    | exact Cell.noConfusion h
    | (injection h with h'
       rw [h']
       assumption)

lemma unattachedIpRow_invariant (a : Address) :
    (unattachedIpRow a).length = 5 ∧
      ∀ q : ℚ, Cell.rat q ∈ unattachedIpRow a → 0 ≤ q := by
  refine ⟨rfl, ?_⟩
  intro q hq
  have hc : (0 : ℚ) ≤ (365/100 : ℚ) := by norm_num
  simp only [unattachedIpRow, List.mem_cons, List.not_mem_nil, or_false] at hq
  rcases hq with h | h | h | h | h
  all_goals first
    | exact Cell.noConfusion h
    | (injection h with h'
       rw [h']
       assumption)

lemma instanceRow_invariant (i : Ec2Instance) :
    (instanceRow i).length = 8 ∧ ∀ q : ℚ, Cell.rat q ∈ instanceRow i → 0 ≤ q := by
  refine ⟨rfl, ?_⟩
  intro q hq
  simp only [instanceRow, List.mem_cons, List.not_mem_nil, or_false] at hq
  rcases hq with h | h | h | h | h | h | h | h
  all_goals exact Cell.noConfusion h

lemma allVolumeRows_invariant (vols : List Volume) :
    ∀ row ∈ allVolumeRows vols,
      row.length = 12 ∧ ∀ q : ℚ, Cell.rat q ∈ row → 0 ≤ q := by
  induction vols with
  | nil => intro row h; cases h
  | cons v rest ih =>
    intro row h
    rcases List.mem_cons.mp h with rfl | h'
    · exact allVolumeRow_invariant v
    · exact ih row h'

lemma unattachedVolumeRows_invariant (vols : List Volume) :
    ∀ row ∈ unattachedVolumeRows vols,
      row.length = 6 ∧ ∀ q : ℚ, Cell.rat q ∈ row → 0 ≤ q := by
  induction vols with
  | nil => intro row h; cases h
  | cons v rest ih =>
    intro row h
    simp only [unattachedVolumeRows] at h
    split_ifs at h with hc
    · rcases List.mem_cons.mp h with rfl | h'
      · exact unattachedVolumeRow_invariant v
      · exact ih row h'
    · exact ih row h

lemma gp2MigrationRows_invariant (vols : List Volume) :
    ∀ row ∈ gp2MigrationRows vols,
      row.length = 8 ∧ ∀ q : ℚ, Cell.rat q ∈ row → 0 ≤ q := by
  induction vols with
  | nil => intro row h; cases h
  | cons v rest ih =>
    intro row h
    simp only [gp2MigrationRows] at h
    split_ifs at h with hc
    · rcases List.mem_cons.mp h with rfl | h'
      · exact gp2MigrationRow_invariant v
      · exact ih row h'
    · exact ih row h

lemma allSnapshotRows_invariant (snaps : List Snapshot) :
    ∀ row ∈ allSnapshotRows snaps,
      row.length = 10 ∧ ∀ q : ℚ, Cell.rat q ∈ row → 0 ≤ q := by
  induction snaps with
  | nil => intro row h; cases h
  | cons s rest ih =>
    intro row h
    rcases List.mem_cons.mp h with rfl | h'
    · exact allSnapshotRow_invariant s
    · exact ih row h'

lemma oldSnapshotRows_invariant (cutoff : ℤ) (snaps : List Snapshot) :
    ∀ row ∈ oldSnapshotRows cutoff snaps,
      row.length = 7 ∧ ∀ q : ℚ, Cell.rat q ∈ row → 0 ≤ q := by
  induction snaps with
  | nil => intro row h; cases h
  | cons s rest ih =>
    intro row h
    simp only [oldSnapshotRows] at h
    split_ifs at h with hc
    · rcases List.mem_cons.mp h with rfl | h'
      · exact oldSnapshotRow_invariant s
      · exact ih row h'
    · exact ih row h

lemma allIpRows_invariant (addrs : List Address) :
    ∀ row ∈ allIpRows addrs,
      row.length = 9 ∧ ∀ q : ℚ, Cell.rat q ∈ row → 0 ≤ q := by
  induction addrs with
  | nil => intro row h; cases h
  | cons a rest ih =>
    intro row h
    rcases List.mem_cons.mp h with rfl | h'
    · exact allIpRow_invariant a
    · exact ih row h'

lemma unattachedIpRows_invariant (addrs : List Address) :
    ∀ row ∈ unattachedIpRows addrs,
      row.length = 5 ∧ ∀ q : ℚ, Cell.rat q ∈ row → 0 ≤ q := by
  induction addrs with
  | nil => intro row h; cases h
  | cons a rest ih =>
    intro row h
    simp only [unattachedIpRows] at h
    split_ifs at h with hc
    · rcases List.mem_cons.mp h with rfl | h'
      · exact unattachedIpRow_invariant a
      · exact ih row h'
    · exact ih row h

lemma instanceRows_invariant (reservations : List Reservation) :
    ∀ row ∈ instanceRows reservations,
      row.length = 8 ∧ ∀ q : ℚ, Cell.rat q ∈ row → 0 ≤ q := by
  induction reservations with
  | nil => intro row h; cases h
  | cons r rest ih =>
    intro row h
    simp only [instanceRows, List.mem_append] at h
    rcases h with h | h
    · rcases List.mem_map.mp h with ⟨i, hi, rfl⟩
      exact instanceRow_invariant i
    · exact ih row h

/-- Claim C8: in every table any collector produces, every row's arity equals
the table's header count, and every cost value (every rational cell) placed
in a row is non-negative. -/
theorem report_table_invariants (volumes : List Volume) (snapshots : List Snapshot)
    (now : ℤ) (addresses : List Address) (reservations : List Reservation) :
    ∀ p ∈ run_audit volumes snapshots now addresses reservations, ∀ row ∈ p.2.data,
      row.length = p.2.headers.length ∧ ∀ q : ℚ, Cell.rat q ∈ row → 0 ≤ q := by
  intro p hp
  simp only [run_audit, audit_ebs_volumes, audit_ebs_snapshots, audit_elastic_ips,
    audit_ec2_instances, List.cons_append, List.nil_append, List.mem_cons,
    List.not_mem_nil, or_false] at hp
  rcases hp with rfl | rfl | rfl | rfl | rfl | rfl | rfl | rfl | rfl
  · exact allVolumeRows_invariant volumes
  · exact unattachedVolumeRows_invariant volumes
  · exact gp2MigrationRows_invariant volumes
  · exact allSnapshotRows_invariant snapshots
  · exact oldSnapshotRows_invariant _ snapshots
  · exact allIpRows_invariant addresses
  · exact unattachedIpRows_invariant addresses
  · exact instanceRows_invariant reservations
  · intro row h
    simp only [generate_cost_summary, List.mem_cons, List.not_mem_nil, or_false] at h
    rcases h with rfl | rfl | rfl | rfl | rfl
    all_goals
      refine ⟨rfl, ?_⟩
      intro q hq
      simp only [List.mem_cons, List.not_mem_nil, or_false] at hq
      rcases hq with h | h | h | h
      all_goals exact Cell.noConfusion h

theorem report_table_invariants_witness :
    ([Cell.str "Unattached_EBS_Volumes", Cell.str "CALCULATED", Cell.str "CALCULATED",
        Cell.str "100%"] : List Cell).length =
      generate_cost_summary.headers.length ∧
    ∀ q : ℚ, Cell.rat q ∈
      ([Cell.str "Unattached_EBS_Volumes", Cell.str "CALCULATED", Cell.str "CALCULATED",
        Cell.str "100%"] : List Cell) → 0 ≤ q :=
  report_table_invariants [] [] 0 [] [] ("Cost_Summary", generate_cost_summary)
    (by decide)
    [Cell.str "Unattached_EBS_Volumes", Cell.str "CALCULATED", Cell.str "CALCULATED",
      Cell.str "100%"]
    (by decide)
